import Mathlib

/-!
Shallow embedding of the hyprswitch dispatch layer (src/src/main.rs) together
with spec-modelled definitions for the library pieces (cli, handle, client,
daemon modules) that the repository slice does not include.  External
collaborators (daemon transport, window manager, GTK) are represented by an
oracle environment `Env` that fixes the outcome of each external call; the
embedded `main` returns the trace of calls it performed, the window-manager
effects produced by the applier, and its `Result`.
-/

namespace Hyprswitch

/-- Modelled from the spec: `SwitchType` of `hyprswitch::cli` (not under src) —
the dimension being cycled: client, workspace, or monitor. -/
inductive SwitchType
  | Client
  | Workspace
  | Monitor
deriving DecidableEq, Repr

/-- Modelled from the spec: `Active` of the hyprswitch library (not under src) —
a tagged union over what currently has focus, scoped by switch-type, with
`Unknown` when the provider could not determine focus.  Identifiers are
abstracted as naturals. -/
inductive Active
  | Client (address : Nat)
  | Workspace (id : Nat)
  | Monitor (id : Nat)
  | Unknown
deriving DecidableEq, Repr

/-- Modelled from the spec: the navigation `Command` of the hyprswitch library
(not under src) — a direction (reverse or not) and an offset. -/
structure Command where
  reverse : Bool
  offset : Nat
deriving DecidableEq, Repr

/-- Modelled from the spec: `ClientsData` of `hyprswitch::handle` (not under
src) — the snapshot's ordered candidate sequences, one per switch-type
dimension, identifiers abstracted as naturals. -/
structure ClientsData where
  clients : List Nat
  workspaces : List Nat
  monitors : List Nat
deriving DecidableEq, Repr

/-- Modelled from the spec: `Config` of the hyprswitch library (not under src);
the dispatch layer only ever reads its `switch_type` field. -/
structure Config where
  switch_type : SwitchType
deriving DecidableEq, Repr

/-- Modelled from the spec: the Selection Engine's error — the snapshot has
zero elements of the requested switch-type. -/
inductive SelectErr
  | NoCandidates
deriving DecidableEq, Repr

/-- Modelled from the spec: the ordered candidate sequence for a switch-type,
built from the snapshot. -/
def candidateIds (st : SwitchType) (d : ClientsData) : List Nat :=
  match st with
  | .Client => d.clients
  | .Workspace => d.workspaces
  | .Monitor => d.monitors

/-- Modelled from the spec: the identifier carried by an `Active` value when it
matches the requested switch-type; `none` for `Unknown` or a mismatched
variant. -/
def activeId (st : SwitchType) (a : Active) : Option Nat :=
  match st, a with
  | .Client, .Client x => some x
  | .Workspace, .Workspace x => some x
  | .Monitor, .Monitor x => some x
  | _, _ => none

/-- Modelled from the spec: tag an identifier as the `Active` variant of the
given switch-type. -/
def mkActive (st : SwitchType) (id : Nat) : Active :=
  match st with
  | .Client => .Client id
  | .Workspace => .Workspace id
  | .Monitor => .Monitor id

/-- Modelled from the spec: the wraparound index step of the Selection Engine,
new index = (current + sign(direction) * max(1, offset)) mod length, with the
modulo computed on non-negative values (integer `emod`), so stepping backward
from index 0 lands on length - 1. -/
def new_index (length current : Nat) (forward : Bool) (offset : Nat) : Nat :=
  (((current : Int) + (if forward then 1 else -1) * ((max 1 offset : Nat) : Int))
    % (length : Int)).toNat

/-- Modelled from the spec: the core of `find_next` over an already-built
candidate sequence.  An empty sequence is a hard `NoCandidates` error; a known
position steps by the wraparound rule; `Unknown` or an absent identifier is
treated as "before the first element", so forward resolves to the first
candidate and backward to the last. -/
def find_next_core (candidates : List Nat) (reverse : Bool) (offset : Nat)
    (current : Option Nat) : Except SelectErr Nat :=
  if candidates.length = 0 then
    .error .NoCandidates
  else
    let idx :=
      match current with
      | some a =>
          if a ∈ candidates then
            new_index candidates.length (candidates.indexOf a) (!reverse) offset
          else if !reverse then 0 else candidates.length - 1
      | none => if !reverse then 0 else candidates.length - 1
    .ok (candidates.getD idx 0)

/-- Modelled from the spec: `find_next` of `hyprswitch::handle` (not under
src) — the pure Selection Engine.  Builds the candidate sequence for the
switch-type, locates the current position from `active`, applies direction and
offset with wraparound and returns the candidate tagged as the corresponding
`Active` variant, or `NoCandidates` on an empty sequence. -/
def find_next (st : SwitchType) (cmd : Command) (d : ClientsData) (active : Active) :
    Except SelectErr Active :=
  (find_next_core (candidateIds st d) cmd.reverse cmd.offset (activeId st active)).map
    (mkActive st)

/-- An observable window-manager side effect issued by the Applier. -/
inductive WMEffect
  | focus (target : Active)
deriving DecidableEq, Repr

/-- One call the dispatch layer makes into an external collaborator, recorded
in order of execution. -/
inductive Action
  | CheckDaemonRunning
  | StartDaemon
  | DeactivateSubmap
  | SendCloseDaemon (kill : Bool)
  | SendSwitchCommand (cmd : Command)
  | SendInitCommand
  | CollectData
  | FindNext (st : SwitchType) (cmd : Command) (active : Active)
  | SwitchToActive (target : Active)
  | GtkInit
  | GetIconName (cls : String)
  | Notify
deriving DecidableEq, Repr

/-- Transport sends: client-to-daemon command messages. -/
def Action.isTransportSend : Action → Bool
  | .SendCloseDaemon _ => true
  | .SendSwitchCommand _ => true
  | .SendInitCommand => true
  | _ => false

/-- Any daemon interaction: transport sends, the reachability probe, or
starting the daemon process itself. -/
def Action.isDaemonRelated : Action → Bool
  | .SendCloseDaemon _ => true
  | .SendSwitchCommand _ => true
  | .SendInitCommand => true
  | .CheckDaemonRunning => true
  | .StartDaemon => true
  | _ => false

/-- Submap manipulation. -/
def Action.isSubmapOp : Action → Bool
  | .DeactivateSubmap => true
  | _ => false

/-- Applier invocations. -/
def Action.isApplierCall : Action → Bool
  | .SwitchToActive _ => true
  | _ => false

/-- Everything except the desktop notification counts as executing command
work. -/
def Action.isCommandWork : Action → Bool
  | .Notify => false
  | _ => true

/-- Oracle environment: the outcome each external collaborator call would
return if performed.  The snapshot result carries the clients data and the
focused (client address, workspace id, monitor id) triple of options. -/
structure Env where
  daemon_running : Bool
  start_daemon_result : Except String Unit
  send_close_daemon_result : Except String Unit
  send_switch_command_result : Except String Unit
  send_init_command_result : Except String Unit
  collect_data_result : Except String (ClientsData × (Option Nat × Option Nat × Option Nat))
  switch_to_active_result : Except String Unit
  gtk_init_result : Except String Unit
  get_icon_name_result : Except String (String × Nat)
  icon_theme_names : List String

/-- Outcome of one embedded invocation of main: the ordered trace of external
calls, the window-manager effects the Applier produced, and main's
`Result`. -/
structure Outcome where
  actions : List Action
  wmEffects : List WMEffect
  result : Except String Unit

/-- Process exit code: Rust's `Termination` for `Result` exits 0 on `Ok` and
1 on `Err`; the argument-parse failure branch calls `exit(1)` which the
embedding also represents as an error result. -/
def exitCode (o : Outcome) : Nat :=
  match o.result with
  | .ok _ => 0
  | .error _ => 1

/-- CLI global options (src/src/main.rs line 45 reads `dry_run`). -/
structure GlobalOpts where
  dry_run : Bool
  verbose : Nat
deriving DecidableEq, Repr

/-- Modelled from the spec: the `SimpleOpts` CLI group of `hyprswitch::cli`
(not under src), carrying the navigation direction and offset that
`Command::from` reads. -/
structure SimpleOpts where
  reverse : Bool
  offset : Nat
deriving DecidableEq, Repr

/-- Modelled from the spec: the `SimpleConf` CLI group of `hyprswitch::cli`
(not under src); `Config::from` reads the switch-type from it. -/
structure SimpleConf where
  switch_type : SwitchType
deriving DecidableEq, Repr

/-- Modelled from the spec: `Command::from(simple_opts)`. -/
def Command.ofSimpleOpts (so : SimpleOpts) : Command :=
  ⟨so.reverse, so.offset⟩

/-- Modelled from the spec: `Config::from(simple_conf)`. -/
def Config.ofSimpleConf (sc : SimpleConf) : Config :=
  ⟨sc.switch_type⟩

/-- The CLI subcommands of src/src/main.rs.  Style parameters of `Init` and
the GUI configuration of `Gui` are opaque pass-through payloads (the f64 size
factor is abstracted as a natural); the dispatch logic never inspects them. -/
inductive CliCommand
  | Init (custom_css : Option String) (show_title : Bool) (workspaces_per_row : Nat)
      (size_factor : Nat)
  | Close (kill : Bool)
  | Dispatch (simple_opts : SimpleOpts)
  | Gui (gui_conf : Nat) (simple_config : SimpleConf)
  | Simple (simple_opts : SimpleOpts) (simple_conf : SimpleConf)
  | Icon (cls : String) (desktop_files : Bool) (list : Bool)
deriving DecidableEq, Repr

/-- A parsed CLI invocation (`App` of `hyprswitch::cli`). -/
structure Cli where
  global_opts : GlobalOpts
  command : CliCommand
deriving DecidableEq, Repr

/-- Result of `App::try_parse()`: either a parsed CLI, or a parse error that
is (or is not) one of the help/version texts. -/
inductive ParseResult
  | ok (cli : Cli)
  | err (helpOrVersion : Bool)

/-- Lines 103-107 of src/src/main.rs: project the focused triple reported by
`collect_data` onto the configured switch-type, falling back to
`Active::Unknown` when that component is absent. -/
def simpleActive (st : SwitchType) (a : Option Nat × Option Nat × Option Nat) : Active :=
  match st with
  | .Client =>
      match a.1 with
      | some address => .Client address
      | none => .Unknown
  | .Workspace =>
      match a.2.1 with
      | some ws => .Workspace ws
      | none => .Unknown
  | .Monitor =>
      match a.2.2 with
      | some mon => .Monitor mon
      | none => .Unknown

/-- Modelled from the spec: `switch_to_active` of `hyprswitch::handle` (not
under src).  The Applier issues the window-manager focus call unless the
process-wide dry-run flag is set, in which case it is a logged no-op; the call
itself may fail per the environment. -/
def switch_to_active (env : Env) (dry : Bool) (target : Active) :
    List WMEffect × Except String Unit :=
  if dry then ([], .ok ())
  else ([.focus target], env.switch_to_active_result)

/-- The `match cli.command` dispatch of src/src/main.rs lines 48-161, branch
by branch, with `dry` the value stored into the process-wide `DRY` cell at
line 45. -/
def runCommand (env : Env) (dry : Bool) : CliCommand → Outcome
  | .Init _ _ _ _ =>
      -- lines 49-61: probe the daemon; already running is a warned no-op Ok;
      -- otherwise start the daemon and on failure fire deactivate_submap
      -- before propagating the error.
      if env.daemon_running then
        ⟨[.CheckDaemonRunning], [], .ok ()⟩
      else
        match env.start_daemon_result with
        | .ok _ => ⟨[.CheckDaemonRunning, .StartDaemon], [], .ok ()⟩
        | .error e =>
            ⟨[.CheckDaemonRunning, .StartDaemon, .DeactivateSubmap], [],
              .error ("Failed to run daemon: " ++ e)⟩
  | .Close kill =>
      -- lines 62-70: not running is a warned no-op Ok; otherwise send the
      -- close command and propagate its failure.
      if env.daemon_running then
        match env.send_close_daemon_result with
        | .ok _ => ⟨[.CheckDaemonRunning, .SendCloseDaemon kill], [], .ok ()⟩
        | .error e =>
            ⟨[.CheckDaemonRunning, .SendCloseDaemon kill], [],
              .error ("Failed to send kill command to daemon: " ++ e)⟩
      else
        ⟨[.CheckDaemonRunning], [], .ok ()⟩
  | .Dispatch so =>
      -- lines 71-75: build the command and send it; no daemon_running probe.
      let command := Command.ofSimpleOpts so
      match env.send_switch_command_result with
      | .ok _ => ⟨[.SendSwitchCommand command], [], .ok ()⟩
      | .error e =>
          ⟨[.SendSwitchCommand command], [],
            .error ("Failed to send switch command to daemon: " ++ e)⟩
  | .Gui _ _ =>
      -- lines 76-95: not running shows a notification and returns Err;
      -- otherwise send the init command and propagate its failure.
      if env.daemon_running then
        match env.send_init_command_result with
        | .ok _ => ⟨[.CheckDaemonRunning, .SendInitCommand], [], .ok ()⟩
        | .error e =>
            ⟨[.CheckDaemonRunning, .SendInitCommand], [],
              .error ("Failed to send init command to daemon: " ++ e)⟩
      else
        ⟨[.CheckDaemonRunning, .Notify], [], .error "Daemon not running"⟩
  | .Simple so sc =>
      -- lines 96-113: collect a fresh snapshot, project the focused element,
      -- run find_next, and apply only on Ok; a find_next error is dropped by
      -- the `if let Ok` and the branch falls through to Ok(()).
      let config := Config.ofSimpleConf sc
      match env.collect_data_result with
      | .error e => ⟨[.CollectData], [], .error ("Failed to collect data: " ++ e)⟩
      | .ok (clients_data, focus) =>
          let command := Command.ofSimpleOpts so
          let active := simpleActive config.switch_type focus
          match find_next config.switch_type command clients_data active with
          | .ok next_active =>
              let applied := switch_to_active env dry next_active
              ⟨[.CollectData, .FindNext config.switch_type command active,
                  .SwitchToActive next_active],
                applied.1, applied.2⟩
          | .error _ =>
              ⟨[.CollectData, .FindNext config.switch_type command active], [], .ok ()⟩
  | .Icon cls desktop_files list =>
      -- lines 114-160: debug icon queries; gtk init failures propagate.
      match list, desktop_files with
      | true, false =>
          match env.gtk_init_result with
          | .ok _ => ⟨[.GtkInit], [], .ok ()⟩
          | .error e => ⟨[.GtkInit], [], .error ("Failed to init gtk: " ++ e)⟩
      | false, true => ⟨[], [], .ok ()⟩
      | _, _ =>
          match env.gtk_init_result with
          | .error e => ⟨[.GtkInit], [], .error ("Failed to init gtk: " ++ e)⟩
          | .ok _ =>
              if cls ∈ env.icon_theme_names then ⟨[.GtkInit], [], .ok ()⟩
              else
                match env.get_icon_name_result with
                | .ok _ => ⟨[.GtkInit, .GetIconName cls], [], .ok ()⟩
                | .error e =>
                    ⟨[.GtkInit, .GetIconName cls], [],
                      .error ("Failed to get icon name for class: " ++ e)⟩

/-- The embedded `main` of src/src/main.rs: a parse failure notifies (unless
the error is a help/version text) and exits 1 before any command is handled;
otherwise the dry-run flag is read once from the CLI options and the command
is dispatched. -/
def runMain (env : Env) (p : ParseResult) : Outcome :=
  match p with
  | .err helpOrVersion =>
      ⟨if helpOrVersion then [] else [.Notify], [], .error "Unable to parse CLI Arguments"⟩
  | .ok cli => runCommand env cli.global_opts.dry_run cli.command

/-- Whether an `Except` is an error. -/
def isErr {ε α : Type} : Except ε α → Bool
  | .error _ => true
  | .ok _ => false

/-- Spec-side predicate, following the spec's words: some internal operation
exercised by this invocation fails (daemon start, transport send, snapshot
query, selection, or a real applier call).  Used to compare the propagation
the spec promises with what the dispatch code does. -/
def internalFailure (env : Env) (dry : Bool) : CliCommand → Bool
  | .Init _ _ _ _ => !env.daemon_running && isErr env.start_daemon_result
  | .Close _ => env.daemon_running && isErr env.send_close_daemon_result
  | .Dispatch _ => isErr env.send_switch_command_result
  | .Gui _ _ => env.daemon_running && isErr env.send_init_command_result
  | .Simple so sc =>
      match env.collect_data_result with
      | .error _ => true
      | .ok (d, f) =>
          match find_next (Config.ofSimpleConf sc).switch_type (Command.ofSimpleOpts so) d
              (simpleActive (Config.ofSimpleConf sc).switch_type f) with
          | .error _ => true
          | .ok _ => !dry && isErr env.switch_to_active_result
  | .Icon cls desktop_files list =>
      match list, desktop_files with
      | true, false => isErr env.gtk_init_result
      | false, true => false
      | _, _ =>
          match env.gtk_init_result with
          | .error _ => true
          | .ok _ => if cls ∈ env.icon_theme_names then false
                     else isErr env.get_icon_name_result

/-- Spec-side predicate: the invocation is a Simple command whose snapshot
query succeeds but whose selection fails (`NoCandidates`). -/
def simpleNoCandidates (env : Env) : CliCommand → Bool
  | .Simple so sc =>
      match env.collect_data_result with
      | .error _ => false
      | .ok (d, f) =>
          isErr (find_next (Config.ofSimpleConf sc).switch_type (Command.ofSimpleOpts so) d
            (simpleActive (Config.ofSimpleConf sc).switch_type f))
  | _ => false

/-- A concrete all-succeeding environment with no daemon running and a
three-client snapshot, used by closed witnesses and counterexamples. -/
def baseEnv : Env where
  daemon_running := false
  start_daemon_result := .ok ()
  send_close_daemon_result := .ok ()
  send_switch_command_result := .ok ()
  send_init_command_result := .ok ()
  collect_data_result := .ok (⟨[1, 2, 3], [1], [1]⟩, (some 1, some 1, some 1))
  switch_to_active_result := .ok ()
  gtk_init_result := .ok ()
  get_icon_name_result := .ok ("x", 0)
  icon_theme_names := []

/-- `baseEnv` with a running daemon. -/
def daemonUpEnv : Env :=
  { baseEnv with daemon_running := true }

/-- `baseEnv` with a failing `start_daemon`. -/
def initFailEnv : Env :=
  { baseEnv with start_daemon_result := .error "boom" }

/-- `baseEnv` with a failing transport send for switch commands. -/
def dispatchFailEnv : Env :=
  { baseEnv with send_switch_command_result := .error "io" }

/-- `baseEnv` whose snapshot succeeds but is empty in every dimension. -/
def emptySnapEnv : Env :=
  { baseEnv with collect_data_result := .ok (⟨[], [], []⟩, (none, none, none)) }

/-- The wraparound step always lands inside the candidate sequence. -/
theorem new_index_lt (L i : Nat) (forward : Bool) (offset : Nat) (hL : 0 < L) :
    new_index L i forward offset < L := by
  unfold new_index
  have hL' : (0 : Int) < (L : Int) := by exact_mod_cast hL
  have hnn : (0 : Int) ≤ ((i : Int) + (if forward then 1 else -1)
      * ((max 1 offset : Nat) : Int)) % (L : Int) :=
    Int.emod_nonneg _ (by omega)
  have hlt := Int.emod_lt_of_pos
    ((i : Int) + (if forward then 1 else -1) * ((max 1 offset : Nat) : Int)) hL'
  omega

/-- Advancing the wraparound step forward by an offset and then backward by
the same offset returns to the starting index. -/
theorem new_index_roundtrip (L i offset : Nat) (hi : i < L) :
    new_index L (new_index L i true offset) false offset = i := by
  have hL : 0 < L := by omega
  have hL' : (0 : Int) < (L : Int) := by exact_mod_cast hL
  unfold new_index
  simp only [if_true, Bool.false_eq_true, if_false]
  set s : Int := ((max 1 offset : Nat) : Int) with hs
  have h1 : (0 : Int) ≤ ((i : Int) + 1 * s) % (L : Int) :=
    Int.emod_nonneg _ (by omega)
  rw [Int.toNat_of_nonneg h1]
  have key : (((i : Int) + 1 * s) % (L : Int) + (-1) * s) % (L : Int)
      = ((i : Int) + 1 * s + (-1) * s) % (L : Int) := by
    rw [Int.add_emod, Int.emod_emod_of_dvd _ dvd_rfl, ← Int.add_emod]
  rw [key]
  have hsimp : (i : Int) + 1 * s + (-1) * s = (i : Int) := by ring
  rw [hsimp]
  rw [Int.emod_eq_of_lt (by omega) (by exact_mod_cast hi)]
  omega

/-- `getD` at an in-range index is the indexed element. -/
theorem getD_of_lt (cs : List Nat) (i : Nat) (h : i < cs.length) :
    cs.getD i 0 = cs[i] := by
  simp [List.getD_eq_getElem?_getD, List.getElem?_eq_getElem h]

/-- On a duplicate-free candidate sequence, `find_next_core` from the element
at a known position steps that position by the wraparound rule. -/
theorem find_next_core_known (cs : List Nat) (hnd : cs.Nodup) (rev : Bool)
    (offset i : Nat) (hi : i < cs.length) :
    find_next_core cs rev offset (some (cs.getD i 0)) =
      .ok (cs.getD (new_index cs.length i (!rev) offset) 0) := by
  have hne : ¬ cs.length = 0 := by omega
  have hget : cs.getD i 0 = cs[i] := getD_of_lt cs i hi
  have hmem : cs[i] ∈ cs := List.getElem_mem hi
  have hidx : cs.indexOf cs[i] = i := List.indexOf_getElem hnd i hi
  unfold find_next_core
  rw [if_neg hne, hget]
  simp [hmem, hidx]

/-- `activeId` inverts `mkActive` on every switch-type. -/
theorem activeId_mkActive (st : SwitchType) (x : Nat) :
    activeId st (mkActive st x) = some x := by
  cases st <;> rfl

/-- Claim C1: if the daemon is not running and `start_daemon` fails on the
Init command, the invocation fires the `deactivate_submap` compensating action
before the error is returned to the caller, so a failed daemon start never
leaves the submap engaged. -/
theorem init_failure_fires_submap_exit (env : Env) (g : GlobalOpts)
    (custom_css : Option String) (show_title : Bool) (wpr sf : Nat) (e : String)
    (hrun : env.daemon_running = false)
    (hfail : env.start_daemon_result = .error e) :
    (runMain env (.ok ⟨g, .Init custom_css show_title wpr sf⟩)).actions
      = [.CheckDaemonRunning, .StartDaemon, .DeactivateSubmap]
    ∧ ∃ msg, (runMain env (.ok ⟨g, .Init custom_css show_title wpr sf⟩)).result
        = .error msg := by
  have h : runMain env (.ok ⟨g, .Init custom_css show_title wpr sf⟩)
      = ⟨[.CheckDaemonRunning, .StartDaemon, .DeactivateSubmap], [],
          .error ("Failed to run daemon: " ++ e)⟩ := by
    simp [runMain, runCommand, hrun, hfail]
  rw [h]
  exact ⟨rfl, ⟨_, rfl⟩⟩

/-- Witness for C1 at a concrete environment whose daemon start fails. -/
theorem init_failure_fires_submap_exit_witness :
    (runMain initFailEnv (.ok ⟨⟨false, 0⟩, .Init none false 5 6⟩)).actions
      = [.CheckDaemonRunning, .StartDaemon, .DeactivateSubmap] :=
  (init_failure_fires_submap_exit initFailEnv ⟨false, 0⟩ none false 5 6 "boom"
    rfl rfl).1

/-- Claim C3: in the Simple path, `switch_to_active` is invoked exactly when
`find_next` succeeds, and then with exactly the target it returned; a
`find_next` error leads to no Applier call in that invocation. -/
theorem simple_applies_iff_find_next_ok (env : Env) (dry : Bool)
    (so : SimpleOpts) (sc : SimpleConf) (d : ClientsData)
    (f : Option Nat × Option Nat × Option Nat)
    (hcd : env.collect_data_result = .ok (d, f)) :
    (runCommand env dry (.Simple so sc)).actions.filter Action.isApplierCall
      = match find_next (Config.ofSimpleConf sc).switch_type (Command.ofSimpleOpts so) d
          (simpleActive (Config.ofSimpleConf sc).switch_type f) with
        | .ok t => [Action.SwitchToActive t]
        | .error _ => [] := by
  cases hfn : find_next (Config.ofSimpleConf sc).switch_type (Command.ofSimpleOpts so) d
      (simpleActive (Config.ofSimpleConf sc).switch_type f) with
  | ok t => simp [runCommand, hcd, hfn, Action.isApplierCall]
  | error e => simp [runCommand, hcd, hfn, Action.isApplierCall]

/-- Witness for C3 at a concrete snapshot where `find_next` succeeds. -/
theorem simple_applies_iff_find_next_ok_witness :
    (runCommand baseEnv false (.Simple ⟨false, 1⟩ ⟨.Client⟩)).actions.filter
        Action.isApplierCall
      = [Action.SwitchToActive (.Client 2)] := by
  rw [simple_applies_iff_find_next_ok baseEnv false ⟨false, 1⟩ ⟨.Client⟩
    ⟨[1, 2, 3], [1], [1]⟩ (some 1, some 1, some 1) rfl]
  rfl

/-- Claim C4: in the non-daemon Simple path a successful invocation queries a
fresh snapshot, computes the next target from it, and immediately applies it,
back-to-back in the same invocation, with no daemon interaction and no submap
side effects. -/
theorem simple_back_to_back (env : Env) (dry : Bool) (so : SimpleOpts)
    (sc : SimpleConf) (d : ClientsData) (f : Option Nat × Option Nat × Option Nat)
    (t : Active)
    (hcd : env.collect_data_result = .ok (d, f))
    (hfn : find_next (Config.ofSimpleConf sc).switch_type (Command.ofSimpleOpts so) d
      (simpleActive (Config.ofSimpleConf sc).switch_type f) = .ok t) :
    (runCommand env dry (.Simple so sc)).actions
      = [.CollectData,
         .FindNext (Config.ofSimpleConf sc).switch_type (Command.ofSimpleOpts so)
           (simpleActive (Config.ofSimpleConf sc).switch_type f),
         .SwitchToActive t]
    ∧ ∀ a ∈ (runCommand env dry (.Simple so sc)).actions,
        a.isDaemonRelated = false ∧ a.isSubmapOp = false := by
  have hact : (runCommand env dry (.Simple so sc)).actions
      = [.CollectData,
         .FindNext (Config.ofSimpleConf sc).switch_type (Command.ofSimpleOpts so)
           (simpleActive (Config.ofSimpleConf sc).switch_type f),
         .SwitchToActive t] := by
    simp [runCommand, hcd, hfn]
  refine ⟨hact, ?_⟩
  rw [hact]
  intro a ha
  simp only [List.mem_cons, List.not_mem_nil, or_false] at ha
  rcases ha with rfl | rfl | rfl <;>
    exact ⟨rfl, rfl⟩

/-- Witness for C4 at a concrete snapshot where the whole pipeline succeeds. -/
theorem simple_back_to_back_witness :
    (runCommand baseEnv false (.Simple ⟨false, 1⟩ ⟨.Client⟩)).actions
      = [.CollectData, .FindNext .Client ⟨false, 1⟩ (.Client 1),
         .SwitchToActive (.Client 2)] :=
  (simple_back_to_back baseEnv false ⟨false, 1⟩ ⟨.Client⟩ ⟨[1, 2, 3], [1], [1]⟩
    (some 1, some 1, some 1) (.Client 2) rfl rfl).1

/-- Claim C7: for every non-empty (duplicate-free) candidate sequence, every
starting position, and every offset, advancing `find_next` forward by the
offset and then backward by the same offset returns the original candidate;
the index moves by (current + sign(direction) * max(1, offset)) mod length,
computed on non-negative values so backward wraps from 0 to length - 1. -/
theorem find_next_roundtrip (st : SwitchType) (d : ClientsData) (offset i : Nat)
    (hnd : (candidateIds st d).Nodup) (hi : i < (candidateIds st d).length) :
    ∃ mid : Active,
      find_next st ⟨false, offset⟩ d
          (mkActive st ((candidateIds st d).getD i 0)) = .ok mid
      ∧ find_next st ⟨true, offset⟩ d mid
          = .ok (mkActive st ((candidateIds st d).getD i 0)) := by
  have hL : 0 < (candidateIds st d).length := by omega
  have hjlt : new_index (candidateIds st d).length i true offset
      < (candidateIds st d).length :=
    new_index_lt (candidateIds st d).length i true offset hL
  refine ⟨mkActive st ((candidateIds st d).getD
    (new_index (candidateIds st d).length i true offset) 0), ?_, ?_⟩
  · unfold find_next
    rw [activeId_mkActive]
    rw [show ((⟨false, offset⟩ : Command).reverse) = false from rfl,
      show ((⟨false, offset⟩ : Command).offset) = offset from rfl]
    rw [find_next_core_known (candidateIds st d) hnd false offset i hi]
    rfl
  · unfold find_next
    rw [activeId_mkActive]
    rw [show ((⟨true, offset⟩ : Command).reverse) = true from rfl,
      show ((⟨true, offset⟩ : Command).offset) = offset from rfl]
    rw [find_next_core_known (candidateIds st d) hnd true offset
      (new_index (candidateIds st d).length i true offset) hjlt]
    rw [show (!true) = false from rfl,
      new_index_roundtrip (candidateIds st d).length i offset hi]
    rfl

/-- Witness for C7 on a concrete two-client snapshot with offset 3. -/
theorem find_next_roundtrip_witness :
    find_next .Client ⟨false, 3⟩ ⟨[5, 7], [1], [2]⟩ (.Client 5) = .ok (.Client 7)
    ∧ find_next .Client ⟨true, 3⟩ ⟨[5, 7], [1], [2]⟩ (.Client 7) = .ok (.Client 5) := by
  obtain ⟨mid, h1, h2⟩ :=
    find_next_roundtrip .Client ⟨[5, 7], [1], [2]⟩ 3 0 (by decide) (by decide)
  have h1' : find_next .Client ⟨false, 3⟩ ⟨[5, 7], [1], [2]⟩ (.Client 5) = .ok mid := h1
  have hc : find_next .Client ⟨false, 3⟩ ⟨[5, 7], [1], [2]⟩ (.Client 5)
      = .ok (.Client 7) := rfl
  rw [h1'] at hc
  injection hc with hmid
  subst hmid
  exact ⟨h1, h2⟩

/-- Claim C8: in the Simple path, the `Active` value handed to `find_next` is
exactly the variant matching the configured switch-type when the snapshot
reports a focused element of that dimension, and `Active.Unknown` when that
component is absent, and selection is still reached in either case. -/
theorem simple_passes_projected_active (env : Env) (dry : Bool) (so : SimpleOpts)
    (sc : SimpleConf) (d : ClientsData) (f : Option Nat × Option Nat × Option Nat)
    (hcd : env.collect_data_result = .ok (d, f)) :
    Action.FindNext (Config.ofSimpleConf sc).switch_type (Command.ofSimpleOpts so)
      (match (Config.ofSimpleConf sc).switch_type with
        | .Client =>
            match f.1 with
            | some x => Active.Client x
            | none => Active.Unknown
        | .Workspace =>
            match f.2.1 with
            | some x => Active.Workspace x
            | none => Active.Unknown
        | .Monitor =>
            match f.2.2 with
            | some x => Active.Monitor x
            | none => Active.Unknown)
      ∈ (runCommand env dry (.Simple so sc)).actions := by
  have hm : (match (Config.ofSimpleConf sc).switch_type with
        | .Client =>
            match f.1 with
            | some x => Active.Client x
            | none => Active.Unknown
        | .Workspace =>
            match f.2.1 with
            | some x => Active.Workspace x
            | none => Active.Unknown
        | .Monitor =>
            match f.2.2 with
            | some x => Active.Monitor x
            | none => Active.Unknown)
      = simpleActive (Config.ofSimpleConf sc).switch_type f := rfl
  rw [hm]
  cases hfn : find_next (Config.ofSimpleConf sc).switch_type (Command.ofSimpleOpts so) d
      (simpleActive (Config.ofSimpleConf sc).switch_type f) with
  | ok t => simp [runCommand, hcd, hfn]
  | error e => simp [runCommand, hcd, hfn]

/-- Witness for C8 at a concrete snapshot with a reported focused client. -/
theorem simple_passes_projected_active_witness :
    Action.FindNext .Client ⟨false, 1⟩ (.Client 1)
      ∈ (runCommand baseEnv false (.Simple ⟨false, 1⟩ ⟨.Client⟩)).actions := by
  have h := simple_passes_projected_active baseEnv false ⟨false, 1⟩ ⟨.Client⟩
    ⟨[1, 2, 3], [1], [1]⟩ (some 1, some 1, some 1) rfl
  simpa using h

/-- Claim C9: the process-wide dry-run flag is read once from the CLI option
before dispatch, and when it is set, no Applier call on any command path
produces an observable window-manager effect. -/
theorem dry_run_suppresses_applier_effects (env : Env) (cli : Cli)
    (hdry : cli.global_opts.dry_run = true) :
    (runMain env (.ok cli)).wmEffects = [] := by
  obtain ⟨g, c⟩ := cli
  have hdry' : g.dry_run = true := hdry
  cases c with
  | Init custom_css show_title wpr sf =>
      simp only [runMain, runCommand]
      split
      · rfl
      · split <;> rfl
  | Close kill =>
      simp only [runMain, runCommand]
      split
      · split <;> rfl
      · rfl
  | Dispatch so =>
      simp only [runMain, runCommand]
      split <;> rfl
  | Gui gc scfg =>
      simp only [runMain, runCommand]
      split
      · split <;> rfl
      · rfl
  | Simple so sc =>
      simp only [runMain, runCommand]
      split
      · rfl
      · split
        · simp [switch_to_active, hdry']
        · rfl
  | Icon cls df list =>
      simp only [runMain, runCommand]
      repeat' (first | rfl | split)

/-- Witness for C9: a dry-run Simple invocation that would otherwise focus a
client produces no window-manager effect. -/
theorem dry_run_suppresses_applier_effects_witness :
    (runMain baseEnv (.ok ⟨⟨true, 0⟩, .Simple ⟨false, 1⟩ ⟨.Client⟩⟩)).wmEffects = [] :=
  dry_run_suppresses_applier_effects baseEnv ⟨⟨true, 0⟩, .Simple ⟨false, 1⟩ ⟨.Client⟩⟩ rfl

/-- Claim C10: when argument parsing fails, the process exits with code 1 and
no command work is executed — in particular no daemon communication and no
window-manager effect (at most a desktop notification is shown). -/
theorem parse_failure_exits_one_no_commands (env : Env) (helpOrVersion : Bool) :
    exitCode (runMain env (.err helpOrVersion)) = 1
    ∧ (∀ a ∈ (runMain env (.err helpOrVersion)).actions, a.isCommandWork = false)
    ∧ (∀ a ∈ (runMain env (.err helpOrVersion)).actions, a.isDaemonRelated = false)
    ∧ (runMain env (.err helpOrVersion)).wmEffects = [] := by
  cases helpOrVersion <;>
    simp [runMain, exitCode, Action.isCommandWork, Action.isDaemonRelated]

/-- Counterexample to claim C2 as stated: on a Simple invocation whose
snapshot query succeeds but whose selection fails with `NoCandidates`, the
process exits with code 0 — an internal operation failed yet the exit is a
success. -/
theorem simple_nocandidates_exits_zero :
    find_next .Client ⟨false, 1⟩ ⟨[], [], []⟩ .Unknown = .error .NoCandidates
    ∧ exitCode (runMain emptySnapEnv
        (.ok ⟨⟨false, 0⟩, .Simple ⟨false, 1⟩ ⟨.Client⟩⟩)) = 0 :=
  ⟨rfl, rfl⟩

/-- Claim C2 (amended): for every one-shot invocation in which an internal
operation fails — excluding a `find_next` failure in the Simple path, which is
silently discarded — the error is propagated to the top of the invocation and
the process exits non-zero. -/
theorem internal_failure_propagates_nonzero (env : Env) (cli : Cli)
    (hfail : internalFailure env cli.global_opts.dry_run cli.command = true)
    (hnc : simpleNoCandidates env cli.command = false) :
    exitCode (runMain env (.ok cli)) ≠ 0 := by
  obtain ⟨g, c⟩ := cli
  have hfail' : internalFailure env g.dry_run c = true := hfail
  have hnc' : simpleNoCandidates env c = false := hnc
  cases c with
  | Init custom_css show_title wpr sf =>
      simp only [internalFailure, Bool.and_eq_true, Bool.not_eq_true'] at hfail'
      obtain ⟨h1, h2⟩ := hfail'
      cases hs : env.start_daemon_result with
      | ok u => rw [hs] at h2; simp [isErr] at h2
      | error e => simp [runMain, runCommand, exitCode, h1, hs]
  | Close kill =>
      simp only [internalFailure, Bool.and_eq_true] at hfail'
      obtain ⟨h1, h2⟩ := hfail'
      cases hs : env.send_close_daemon_result with
      | ok u => rw [hs] at h2; simp [isErr] at h2
      | error e => simp [runMain, runCommand, exitCode, h1, hs]
  | Dispatch so =>
      simp only [internalFailure] at hfail'
      cases hs : env.send_switch_command_result with
      | ok u => rw [hs] at hfail'; simp [isErr] at hfail'
      | error e => simp [runMain, runCommand, exitCode, hs]
  | Gui gc scfg =>
      simp only [internalFailure, Bool.and_eq_true] at hfail'
      obtain ⟨h1, h2⟩ := hfail'
      cases hs : env.send_init_command_result with
      | ok u => rw [hs] at h2; simp [isErr] at h2
      | error e => simp [runMain, runCommand, exitCode, h1, hs]
  | Simple so sc =>
      cases hcd : env.collect_data_result with
      | error e => simp [runMain, runCommand, exitCode, hcd]
      | ok p =>
          obtain ⟨d, f⟩ := p
          cases hfn : find_next (Config.ofSimpleConf sc).switch_type
              (Command.ofSimpleOpts so) d
              (simpleActive (Config.ofSimpleConf sc).switch_type f) with
          | error e =>
              simp only [simpleNoCandidates, hcd, hfn, isErr] at hnc'
              exact absurd hnc' (by simp)
          | ok t =>
              simp only [internalFailure, hcd, hfn, Bool.and_eq_true,
                Bool.not_eq_true'] at hfail'
              obtain ⟨hdry, hsw⟩ := hfail'
              cases hs : env.switch_to_active_result with
              | ok u => rw [hs] at hsw; simp [isErr] at hsw
              | error e =>
                  simp [runMain, runCommand, exitCode, hcd, hfn,
                    switch_to_active, hdry, hs]
  | Icon cls df list =>
      cases list with
      | true =>
          cases df with
          | false =>
              simp only [internalFailure] at hfail'
              cases hs : env.gtk_init_result with
              | ok u => rw [hs] at hfail'; simp [isErr] at hfail'
              | error e => simp [runMain, runCommand, exitCode, hs]
          | true =>
              simp only [internalFailure] at hfail'
              cases hs : env.gtk_init_result with
              | ok u =>
                  rw [hs] at hfail'
                  by_cases hmem : cls ∈ env.icon_theme_names
                  · simp [hmem] at hfail'
                  · simp only [if_neg hmem] at hfail'
                    cases hg : env.get_icon_name_result with
                    | ok v => rw [hg] at hfail'; simp [isErr] at hfail'
                    | error e =>
                        simp [runMain, runCommand, exitCode, hs, hmem, hg]
              | error e => simp [runMain, runCommand, exitCode, hs]
      | false =>
          cases df with
          | true => simp [internalFailure] at hfail'
          | false =>
              simp only [internalFailure] at hfail'
              cases hs : env.gtk_init_result with
              | ok u =>
                  rw [hs] at hfail'
                  by_cases hmem : cls ∈ env.icon_theme_names
                  · simp [hmem] at hfail'
                  · simp only [if_neg hmem] at hfail'
                    cases hg : env.get_icon_name_result with
                    | ok v => rw [hg] at hfail'; simp [isErr] at hfail'
                    | error e =>
                        simp [runMain, runCommand, exitCode, hs, hmem, hg]
              | error e => simp [runMain, runCommand, exitCode, hs]

/-- Witness for the amended C2: a Dispatch invocation whose transport send
fails exits non-zero. -/
theorem internal_failure_propagates_nonzero_witness :
    exitCode (runMain dispatchFailEnv
      (.ok ⟨⟨false, 0⟩, .Dispatch ⟨false, 1⟩⟩)) ≠ 0 :=
  internal_failure_propagates_nonzero dispatchFailEnv
    ⟨⟨false, 0⟩, .Dispatch ⟨false, 1⟩⟩ rfl rfl

/-- Counterexample to claim C5 as stated: a Gui invocation with no daemon
running exits with code 1, a propagated failure rather than a no-op
success. -/
theorem gui_without_daemon_fails_nonzero :
    exitCode (runMain baseEnv (.ok ⟨⟨false, 0⟩, .Gui 0 ⟨.Client⟩⟩)) = 1 :=
  rfl

/-- Claim C5 (amended): Init with a daemon already running and Close with no
daemon running perform no daemon action and return a warned no-op success;
Gui with no daemon running performs no transport send but returns a
propagated error (non-zero exit) after showing a notification. -/
theorem precondition_noop_behavior (envUp envDown : Env) (dry1 dry2 : Bool)
    (hup : envUp.daemon_running = true) (hdown : envDown.daemon_running = false) :
    (∀ custom_css show_title wpr sf,
        runCommand envUp dry1 (.Init custom_css show_title wpr sf)
          = ⟨[.CheckDaemonRunning], [], .ok ()⟩)
    ∧ (∀ kill, runCommand envDown dry2 (.Close kill)
        = ⟨[.CheckDaemonRunning], [], .ok ()⟩)
    ∧ (∀ gc scfg,
        (∀ a ∈ (runCommand envDown dry2 (.Gui gc scfg)).actions,
          a.isTransportSend = false)
        ∧ ∃ e, (runCommand envDown dry2 (.Gui gc scfg)).result = .error e) := by
  refine ⟨fun custom_css show_title wpr sf => ?_, fun kill => ?_, fun gc scfg => ?_⟩
  · simp [runCommand, hup]
  · simp [runCommand, hdown]
  · have h : runCommand envDown dry2 (.Gui gc scfg)
        = ⟨[.CheckDaemonRunning, .Notify], [], .error "Daemon not running"⟩ := by
      simp [runCommand, hdown]
    rw [h]
    refine ⟨?_, ⟨_, rfl⟩⟩
    intro a ha
    simp only [List.mem_cons, List.not_mem_nil, or_false] at ha
    rcases ha with rfl | rfl <;> rfl

/-- Witness for the amended C5: Init with a running daemon is a no-op
success. -/
theorem precondition_noop_behavior_witness :
    runCommand daemonUpEnv false (.Init none false 1 1)
      = ⟨[.CheckDaemonRunning], [], .ok ()⟩ :=
  (precondition_noop_behavior daemonUpEnv baseEnv false false rfl rfl).1 none false 1 1

/-- Counterexample to claim C6 as stated: a Dispatch invocation sends the
switch command on the transport without ever probing `daemon_running`. -/
theorem dispatch_sends_without_daemon_check :
    Action.CheckDaemonRunning
        ∉ (runMain baseEnv (.ok ⟨⟨false, 0⟩, .Dispatch ⟨false, 1⟩⟩)).actions
    ∧ Action.SendSwitchCommand ⟨false, 1⟩
        ∈ (runMain baseEnv (.ok ⟨⟨false, 0⟩, .Dispatch ⟨false, 1⟩⟩)).actions := by
  decide

/-- Claim C6 (amended): Init, Close, and Gui first probe `daemon_running`
before any transport message, but Dispatch sends `send_switch_command`
directly without the probe. -/
theorem daemon_check_coverage (env : Env) (dry : Bool) :
    (∀ custom_css show_title wpr sf,
      (runCommand env dry (.Init custom_css show_title wpr sf)).actions.head?
        = some .CheckDaemonRunning)
    ∧ (∀ kill, (runCommand env dry (.Close kill)).actions.head?
        = some .CheckDaemonRunning)
    ∧ (∀ gc scfg, (runCommand env dry (.Gui gc scfg)).actions.head?
        = some .CheckDaemonRunning)
    ∧ (∀ so, (runCommand env dry (.Dispatch so)).actions
        = [.SendSwitchCommand (Command.ofSimpleOpts so)]) := by
  refine ⟨fun custom_css show_title wpr sf => ?_, fun kill => ?_,
    fun gc scfg => ?_, fun so => ?_⟩ <;>
    (simp only [runCommand]; repeat' (first | rfl | split))

end Hyprswitch
